import Mathlib

/-!
Shallow embedding of `download_cavity_tutorial` from
`src/awesome_foamlib/download.py` (the tutorial-acquisition fallback
routine), together with theorems settling the claims about it.

Modelling choices, stated once:
* The target directory is the only filesystem state the function touches.
  It is modelled as `Option DirState`: `none` means the directory is
  absent, `some d` means it exists with the given set of relative file
  paths (`d.files`) and subdirectories (`d.dirs`).  File contents are not
  modelled; only path existence matters to the routine (every check in
  the source is a `.exists()` test).
* The environment `Env` fixes the outcome of every external interaction:
  whether the hard-coded system-installation path exists with its
  `controlDict` (`systemAvail`, collapsing the two `.exists()` probes on
  lines 41 of the source), which relative file paths the
  `copytree`/`copy2` loop places into the target and whether it raises
  `OSError`/`shutil.Error` after some of them (`copyItems`,
  `copyFailsAfter`), whether each `urlretrieve` succeeds (`dlOk`), the
  text of a failed retrieval's exception (`dlErr`), and whether
  `shutil.rmtree(..., ignore_errors=True)` manages to remove the tree
  (`rmtreeOk`; its errors are swallowed either way).  A failed
  `urlretrieve` is modelled as leaving no file behind.
* Every externally visible action is recorded in an event trace:
  directory creation that actually creates something, copies from the
  system tree, HTTP requests, file writes, tree removal, and log calls.
  `target_dir.mkdir(exist_ok=True)` on an existing directory changes
  nothing and emits no event.
-/

namespace AwesomeFoamlib

/-- Paths relative to the target directory, e.g. `"system/controlDict"`. -/
abbrev RelPath := String

/-- Contents of an existing target directory: the relative paths of the
files and of the subdirectories it holds. -/
structure DirState where
  files : List RelPath
  dirs : List RelPath
deriving Repr, DecidableEq

/-- Target-directory state: `none` = absent, `some d` = present. -/
abbrev FS := Option DirState

/-- One externally visible action of the routine. -/
inductive Event where
  | logInfo (msg : String)
  | logWarning (msg : String)
  | logError (msg : String)
  | mkdir (name : String)
  | copyItem (p : RelPath)
  | httpGet (url : String)
  | writeFile (p : RelPath)
  | rmtree
deriving Repr, DecidableEq

/-- Outcomes of all external interactions, fixed up front. -/
structure Env where
  systemAvail : Bool
  copyItems : List RelPath
  copyFailsAfter : Option Nat
  dlOk : RelPath → Bool
  dlErr : RelPath → String
  rmtreeOk : Bool

/-- Result of a run: the returned value (`Except.ok ()` stands for the
source returning `target_dir`; `Except.error msg` for the raised
`RuntimeError(msg)`), the final target-directory state, and the trace. -/
structure Result where
  res : Except String Unit
  fs : FS
  trace : List Event
deriving Repr

/-- The completeness marker file checked throughout the source. -/
def controlDict : RelPath := "system/controlDict"

/-- The `files_to_download` dict of the source; in the source each remote
path maps to the identical local path, so a single list suffices.  Order
is the dict's insertion order, which is the iteration order. -/
def filesToDownload : List RelPath :=
  ["system/controlDict", "system/fvSchemes", "system/fvSolution",
   "system/blockMeshDict", "0/U", "0/p", "constant/transportProperties"]

/-- The `base_url` constant of the source. -/
def baseUrl : String :=
  "https://develop.openfoam.com/Development/openfoam/-/raw/master/" ++
  "tutorials/incompressible/icoFoam/cavity/cavity/"

/-- Does a file with this relative path exist in the directory? -/
def DirState.hasFile (d : DirState) (p : RelPath) : Bool :=
  d.files.contains p

/-- Writing a file: path existence is a set, content is not modelled, so
writing an already-present path leaves the state unchanged. -/
def DirState.addFile (d : DirState) (p : RelPath) : DirState :=
  if d.files.contains p then d else { d with files := p :: d.files }

/-- `mkdir(exist_ok=True)` on a subdirectory: creates it (one `mkdir`
event) only when absent. -/
def DirState.addDir (d : DirState) (name : String) : DirState × List Event :=
  if d.dirs.contains name then (d, [])
  else ({ d with dirs := d.dirs ++ [name] }, [Event.mkdir name])

/-- Does the (possibly absent) target contain this file? -/
def FS.containsFile (fs : FS) (p : RelPath) : Bool :=
  match fs with
  | none => false
  | some d => d.hasFile p

/-- `target_dir.mkdir(parents=True, exist_ok=True)`: creates the target
when absent, otherwise a no-op. -/
def ensureTarget (fs : FS) : DirState × List Event :=
  match fs with
  | none => ({ files := [], dirs := [] }, [Event.mkdir "target_dir"])
  | some d => (d, [])

/-- The file paths the copy loop places into the target before finishing
or before the `OSError`/`shutil.Error` interrupts it. -/
def copiedItems (env : Env) : List RelPath :=
  match env.copyFailsAfter with
  | none => env.copyItems
  | some k => env.copyItems.take k

/-- Events common to every outcome of the copy loop: the info log, then
one `copyItem` per file placed before completion or interruption. -/
def copyEvents (env : Env) : List Event :=
  Event.logInfo "Copying tutorial from system installation" ::
    (copiedItems env).map Event.copyItem

/-- Lines 41-57 of the source: the system-installation copy attempt.
Returns the state and events, and whether this phase returned
`target_dir` (copy completed without exception and the copied tree
verified to contain `controlDict`).  On an `OSError`/`shutil.Error`
(`copyFailsAfter.isSome`) or on failed verification a warning is logged
and control falls through. -/
def systemCopyPhase (env : Env) (d : DirState) : DirState × List Event × Bool :=
  if env.systemAvail then
    if env.copyFailsAfter.isSome then
      ((copiedItems env).foldl DirState.addFile d,
       copyEvents env ++ [Event.logWarning "Failed to copy from system"], false)
    else if ((copiedItems env).foldl DirState.addFile d).hasFile controlDict then
      ((copiedItems env).foldl DirState.addFile d,
       copyEvents env ++ [Event.logInfo "Tutorial copied successfully"], true)
    else
      ((copiedItems env).foldl DirState.addFile d,
       copyEvents env ++ [Event.logWarning "System copy incomplete, falling back to download"],
       false)
  else (d, [], false)

/-- The files the download loop fails on, in loop order. -/
def failedFiles (env : Env) : List RelPath :=
  filesToDownload.filter (fun p => !env.dlOk p)

/-- The `download_errors` list accumulated by the loop: one entry per
failed file, `"Failed to download {remote_path}: {e}"`. -/
def downloadErrors (env : Env) : List String :=
  (failedFiles env).map (fun p => "Failed to download " ++ p ++ ": " ++ env.dlErr p)

/-- Events of one iteration of the download loop for file `p`: the info
log, the HTTP request, then either the file write or the exception log. -/
def dlEvents (env : Env) (p : RelPath) : List Event :=
  if env.dlOk p then
    [Event.logInfo ("Downloading " ++ p), Event.httpGet (baseUrl ++ p), Event.writeFile p]
  else
    [Event.logInfo ("Downloading " ++ p), Event.httpGet (baseUrl ++ p),
     Event.logError ("Failed to download " ++ p)]

/-- Lines 61-95 of the source: create the `0`, `constant`, `system`
subdirectories, then attempt all seven downloads in order.  Per
iteration the state change (write on success), the events, and the
recorded error (on failure) depend only on that iteration's file, so the
sequential loop is rendered as the successful writes folded into the
state, the per-file event blocks concatenated in loop order, and the
error list `downloadErrors env`. -/
def downloadPhase (env : Env) (d : DirState) : DirState × List Event :=
  let (da, ea) := d.addDir "0"
  let (db, eb) := da.addDir "constant"
  let (dc, ec) := db.addDir "system"
  ((filesToDownload.filter env.dlOk).foldl DirState.addFile dc,
   ea ++ eb ++ ec ++ filesToDownload.flatMap (dlEvents env))

/-- The message of the raised `RuntimeError`, exactly as built on lines
100-105 of the source. -/
def errorMsg (env : Env) : String :=
  if (downloadErrors env).isEmpty then "controlDict not found after download"
  else "Failed to download OpenFOAM tutorial. Errors: " ++
    String.intercalate "; " (downloadErrors env)

/-- Lines 97-109 of the source: verify `controlDict`, on failure remove
the whole tree (`ignore_errors=True`: when removal fails the state is
left as is and the error is raised regardless) and raise. -/
def finalize (env : Env) (d : DirState) : Except String Unit × FS × List Event :=
  if d.hasFile controlDict then
    (Except.ok (), some d, [Event.logInfo "Tutorial downloaded successfully"])
  else
    (Except.error (errorMsg env),
     if env.rmtreeOk then none else some d,
     [Event.rmtree])

/-- The whole routine `download_cavity_tutorial(target_dir)`: ensure the
target exists, short-circuit if `system/controlDict` is already there,
try the system copy, fall back to the download phase, verify and clean
up. -/
def download_cavity_tutorial (env : Env) (fs0 : FS) : Result :=
  if (ensureTarget fs0).1.hasFile controlDict then
    { res := Except.ok (), fs := some (ensureTarget fs0).1,
      trace := (ensureTarget fs0).2 ++ [Event.logInfo "Using existing tutorial"] }
  else if (systemCopyPhase env (ensureTarget fs0).1).2.2 then
    { res := Except.ok (),
      fs := some (systemCopyPhase env (ensureTarget fs0).1).1,
      trace := (ensureTarget fs0).2 ++ (systemCopyPhase env (ensureTarget fs0).1).2.1 }
  else
    { res := (finalize env (downloadPhase env (systemCopyPhase env (ensureTarget fs0).1).1).1).1,
      fs := (finalize env (downloadPhase env (systemCopyPhase env (ensureTarget fs0).1).1).1).2.1,
      trace := (ensureTarget fs0).2 ++ (systemCopyPhase env (ensureTarget fs0).1).2.1 ++
        [Event.logInfo "Downloading tutorial from GitHub"] ++
        (downloadPhase env (systemCopyPhase env (ensureTarget fs0).1).1).2 ++
        (finalize env (downloadPhase env (systemCopyPhase env (ensureTarget fs0).1).1).1).2.2 }

/-- Is the event an HTTP request? -/
def Event.isNet : Event → Bool
  | Event.httpGet _ => true
  | _ => false

/-- Is the event a copy from the system tree? -/
def Event.isCopy : Event → Bool
  | Event.copyItem _ => true
  | _ => false

/-! ### Basic facts about the state operations -/

theorem hasFile_iff_mem (d : DirState) (p : RelPath) :
    d.hasFile p = true ↔ p ∈ d.files := by
  simp [DirState.hasFile]

theorem hasFile_addFile (d : DirState) (p q : RelPath) :
    (d.addFile q).hasFile p = true ↔ (d.hasFile p = true ∨ p = q) := by
  unfold DirState.addFile
  split
  case isTrue hq =>
    constructor
    · exact Or.inl
    · rintro (h | rfl)
      · exact h
      · simpa [DirState.hasFile] using hq
  case isFalse hq =>
    simp [DirState.hasFile, or_comm]

theorem hasFile_foldl_addFile (l : List RelPath) (d : DirState) (p : RelPath) :
    (l.foldl DirState.addFile d).hasFile p = true ↔ (d.hasFile p = true ∨ p ∈ l) := by
  induction l generalizing d with
  | nil => simp
  | cons q l ih =>
    simp only [List.foldl_cons, ih, hasFile_addFile, List.mem_cons]
    tauto

theorem hasFile_addDir (d : DirState) (n : String) (p : RelPath) :
    (d.addDir n).1.hasFile p = d.hasFile p := by
  unfold DirState.addDir
  split <;> simp [DirState.hasFile]

theorem ensureTarget_hasFile (fs : FS) (p : RelPath) :
    (ensureTarget fs).1.hasFile p = fs.containsFile p := by
  cases fs <;> simp [ensureTarget, FS.containsFile, DirState.hasFile]

/-! ### Characterizations of the phases -/

theorem systemCopyPhase_fst (env : Env) (d : DirState) :
    (systemCopyPhase env d).1 =
      if env.systemAvail then (copiedItems env).foldl DirState.addFile d else d := by
  unfold systemCopyPhase
  split
  · split
    · rfl
    · split <;> rfl
  · rfl

theorem systemCopyPhase_done (env : Env) (d : DirState) :
    (systemCopyPhase env d).2.2 = true ↔
      (env.systemAvail = true ∧ env.copyFailsAfter = none ∧
       ((copiedItems env).foldl DirState.addFile d).hasFile controlDict = true) := by
  unfold systemCopyPhase
  split
  case isTrue hsa =>
    split
    case isTrue hcf =>
      simp only [Option.isSome_iff_exists] at hcf
      obtain ⟨k, hk⟩ := hcf
      simp [hsa, hk]
    case isFalse hcf =>
      have hnone : env.copyFailsAfter = none := by
        cases h2 : env.copyFailsAfter
        · rfl
        · simp [h2] at hcf
      split
      case isTrue h => simp [hsa, hnone, h]
      case isFalse h => simp [hsa, hnone, h]
  case isFalse hsa =>
    simp only [Bool.not_eq_true] at hsa
    simp [hsa]

theorem httpGet_not_mem_copyEvents (env : Env) (u : String) :
    Event.httpGet u ∉ copyEvents env := by
  unfold copyEvents
  simp

theorem systemCopyPhase_no_net (env : Env) (d : DirState) (u : String) :
    Event.httpGet u ∉ (systemCopyPhase env d).2.1 := by
  unfold systemCopyPhase
  split
  · split
    · simp [httpGet_not_mem_copyEvents]
    · split <;> simp [httpGet_not_mem_copyEvents]
  · simp

theorem downloadPhase_hasFile (env : Env) (d : DirState) (p : RelPath) :
    (downloadPhase env d).1.hasFile p = true ↔
      (d.hasFile p = true ∨ p ∈ filesToDownload.filter env.dlOk) := by
  unfold downloadPhase
  simp [hasFile_foldl_addFile, hasFile_addDir]

theorem httpGet_mem_dlEvents (env : Env) (p : RelPath) :
    Event.httpGet (baseUrl ++ p) ∈ dlEvents env p := by
  unfold dlEvents
  split <;> simp

theorem httpGet_mem_downloadPhase (env : Env) (d : DirState) (p : RelPath)
    (hp : p ∈ filesToDownload) :
    Event.httpGet (baseUrl ++ p) ∈ (downloadPhase env d).2 := by
  unfold downloadPhase
  simp only [List.mem_append]
  exact Or.inr (List.mem_flatMap.mpr ⟨p, hp, httpGet_mem_dlEvents env p⟩)

theorem logError_mem_dlEvents (env : Env) (p : RelPath) (h : env.dlOk p = false) :
    Event.logError ("Failed to download " ++ p) ∈ dlEvents env p := by
  unfold dlEvents
  simp [h]

theorem logError_mem_downloadPhase (env : Env) (d : DirState) (p : RelPath)
    (hp : p ∈ filesToDownload) (h : env.dlOk p = false) :
    Event.logError ("Failed to download " ++ p) ∈ (downloadPhase env d).2 := by
  unfold downloadPhase
  simp only [List.mem_append]
  exact Or.inr (List.mem_flatMap.mpr ⟨p, hp, logError_mem_dlEvents env p h⟩)

theorem httpGet_not_mem_ensureTarget (fs : FS) (u : String) :
    Event.httpGet u ∉ (ensureTarget fs).2 := by
  cases fs <;> simp [ensureTarget]

theorem finalize_ok (env : Env) (d : DirState) (h : d.hasFile controlDict = true) :
    finalize env d =
      (Except.ok (), some d, [Event.logInfo "Tutorial downloaded successfully"]) := by
  simp [finalize, h]

theorem finalize_err (env : Env) (d : DirState) (h : d.hasFile controlDict = false) :
    finalize env d =
      (Except.error (errorMsg env),
       if env.rmtreeOk then none else some d, [Event.rmtree]) := by
  simp [finalize, h]

/-! ### Run-level characterizations -/

theorem run_shortcircuit (env : Env) (d : DirState) (h : d.hasFile controlDict = true) :
    download_cavity_tutorial env (some d) =
      { res := Except.ok (), fs := some d,
        trace := [Event.logInfo "Using existing tutorial"] } := by
  unfold download_cavity_tutorial
  simp [ensureTarget, h]

theorem run_ok_iff_marker (env : Env) (fs0 : FS) :
    (download_cavity_tutorial env fs0).res = Except.ok () ↔
      (download_cavity_tutorial env fs0).fs.containsFile controlDict = true := by
  unfold download_cavity_tutorial
  split
  case isTrue h =>
    simpa [FS.containsFile] using h
  case isFalse h =>
    split
    case isTrue hdone =>
      obtain ⟨hsa, hcf, hv⟩ := (systemCopyPhase_done env (ensureTarget fs0).1).mp hdone
      rw [systemCopyPhase_fst]
      simp [FS.containsFile, hsa, hv]
    case isFalse hdone =>
      by_cases hm :
          (downloadPhase env (systemCopyPhase env (ensureTarget fs0).1).1).1.hasFile
            controlDict = true
      · rw [finalize_ok env _ hm]
        simpa [FS.containsFile] using hm
      · rw [Bool.not_eq_true] at hm
        rw [finalize_err env _ hm]
        constructor
        · intro hc
          simp at hc
        · intro hc
          by_cases hr : env.rmtreeOk = true
          · simp [hr, FS.containsFile] at hc
          · rw [Bool.not_eq_true] at hr
            simp [hr, FS.containsFile, hm] at hc

theorem run_shortcircuit_general (env : Env) (fs0 : FS)
    (h : (ensureTarget fs0).1.hasFile controlDict = true) :
    download_cavity_tutorial env fs0 =
      { res := Except.ok (), fs := some (ensureTarget fs0).1,
        trace := (ensureTarget fs0).2 ++ [Event.logInfo "Using existing tutorial"] } := by
  unfold download_cavity_tutorial
  simp [h]

theorem run_copydone (env : Env) (fs0 : FS)
    (h1 : (ensureTarget fs0).1.hasFile controlDict = false)
    (h2 : (systemCopyPhase env (ensureTarget fs0).1).2.2 = true) :
    download_cavity_tutorial env fs0 =
      { res := Except.ok (),
        fs := some (systemCopyPhase env (ensureTarget fs0).1).1,
        trace := (ensureTarget fs0).2 ++ (systemCopyPhase env (ensureTarget fs0).1).2.1 } := by
  unfold download_cavity_tutorial
  simp [h1, h2]

theorem run_fallback (env : Env) (fs0 : FS)
    (h1 : (ensureTarget fs0).1.hasFile controlDict = false)
    (h2 : (systemCopyPhase env (ensureTarget fs0).1).2.2 = false) :
    download_cavity_tutorial env fs0 =
      { res := (finalize env
          (downloadPhase env (systemCopyPhase env (ensureTarget fs0).1).1).1).1,
        fs := (finalize env
          (downloadPhase env (systemCopyPhase env (ensureTarget fs0).1).1).1).2.1,
        trace := (ensureTarget fs0).2 ++ (systemCopyPhase env (ensureTarget fs0).1).2.1 ++
          [Event.logInfo "Downloading tutorial from GitHub"] ++
          (downloadPhase env (systemCopyPhase env (ensureTarget fs0).1).1).2 ++
          (finalize env
            (downloadPhase env (systemCopyPhase env (ensureTarget fs0).1).1).1).2.2 } := by
  unfold download_cavity_tutorial
  simp [h1, h2]

theorem run_error_shape (env : Env) (fs0 : FS) (msg : String)
    (h : (download_cavity_tutorial env fs0).res = Except.error msg) :
    (ensureTarget fs0).1.hasFile controlDict = false ∧
    (systemCopyPhase env (ensureTarget fs0).1).2.2 = false ∧
    (downloadPhase env (systemCopyPhase env (ensureTarget fs0).1).1).1.hasFile
      controlDict = false := by
  by_cases h1 : (ensureTarget fs0).1.hasFile controlDict = true
  · rw [run_shortcircuit_general env fs0 h1] at h
    simp at h
  · rw [Bool.not_eq_true] at h1
    by_cases h2 : (systemCopyPhase env (ensureTarget fs0).1).2.2 = true
    · rw [run_copydone env fs0 h1 h2] at h
      simp at h
    · rw [Bool.not_eq_true] at h2
      refine ⟨h1, h2, ?_⟩
      by_cases h3 :
          (downloadPhase env (systemCopyPhase env (ensureTarget fs0).1).1).1.hasFile
            controlDict = true
      · rw [run_fallback env fs0 h1 h2] at h
        simp only [] at h
        rw [finalize_ok env _ h3] at h
        simp at h
      · rwa [Bool.not_eq_true] at h3

theorem run_error (env : Env) (fs0 : FS) (msg : String)
    (h : (download_cavity_tutorial env fs0).res = Except.error msg) :
    msg = errorMsg env ∧
    (download_cavity_tutorial env fs0).fs =
      (if env.rmtreeOk then none
       else some (downloadPhase env (systemCopyPhase env (ensureTarget fs0).1).1).1) ∧
    Event.rmtree ∈ (download_cavity_tutorial env fs0).trace := by
  obtain ⟨h1, h2, h3⟩ := run_error_shape env fs0 msg h
  have he := run_fallback env fs0 h1 h2
  rw [he] at h
  simp only [finalize_err env _ h3] at h
  refine ⟨?_, ?_, ?_⟩
  · injection h with h4
    exact h4.symm
  · rw [he]
    simp only [finalize_err env _ h3]
  · rw [he]
    simp [finalize_err env _ h3]

theorem finalize_res_ignores_rmtree (env : Env) (b : Bool) (d : DirState) :
    (finalize { env with rmtreeOk := b } d).1 = (finalize env d).1 := by
  by_cases h : d.hasFile controlDict = true
  · rw [finalize_ok _ _ h, finalize_ok _ _ h]
  · rw [Bool.not_eq_true] at h
    rw [finalize_err _ _ h, finalize_err _ _ h]
    rfl

theorem res_ignores_rmtree (env : Env) (b : Bool) (fs0 : FS) :
    (download_cavity_tutorial { env with rmtreeOk := b } fs0).res =
      (download_cavity_tutorial env fs0).res := by
  by_cases h1 : (ensureTarget fs0).1.hasFile controlDict = true
  · rw [run_shortcircuit_general { env with rmtreeOk := b } fs0 h1,
      run_shortcircuit_general env fs0 h1]
  · rw [Bool.not_eq_true] at h1
    by_cases h2 : (systemCopyPhase env (ensureTarget fs0).1).2.2 = true
    · have h2b :
          (systemCopyPhase { env with rmtreeOk := b } (ensureTarget fs0).1).2.2 = true := h2
      rw [run_copydone { env with rmtreeOk := b } fs0 h1 h2b, run_copydone env fs0 h1 h2]
    · rw [Bool.not_eq_true] at h2
      have h2b :
          (systemCopyPhase { env with rmtreeOk := b } (ensureTarget fs0).1).2.2 = false := h2
      rw [run_fallback { env with rmtreeOk := b } fs0 h1 h2b, run_fallback env fs0 h1 h2]
      exact finalize_res_ignores_rmtree env b _

/-! ### A substring test that computes by structural recursion -/

/-- Does the second character list start with the first? -/
def leadsWith : List Char → List Char → Bool
  | _, [] => true
  | [], _ :: _ => false
  | c :: s, d :: t => c == d && leadsWith s t

/-- Does `pat` occur somewhere inside `s`? -/
def occursIn (s pat : List Char) : Bool :=
  match s with
  | [] => pat.isEmpty
  | _ :: t => leadsWith s pat || occursIn t pat

/-- Does the string `pat` occur inside the string `s`? -/
def strOccurs (pat s : String) : Bool :=
  occursIn s.data pat.data

/-! ### Concrete environments and directory states used as witnesses -/

/-- No system installation; every download fails with a bare timeout
text that mentions no URL. -/
def envAllFail : Env :=
  { systemAvail := false, copyItems := [], copyFailsAfter := none,
    dlOk := fun _ => false, dlErr := fun _ => "timed out", rmtreeOk := true }

/-- No system installation; all seven downloads succeed. -/
def envAllOk : Env :=
  { envAllFail with dlOk := fun _ => true }

/-- Six of seven downloads succeed; `system/controlDict` itself fails. -/
def envSixOk : Env :=
  { envAllFail with dlOk := fun p => !(p == "system/controlDict") }

/-- System installation present; the copy places all seven files. -/
def envSysOk : Env :=
  { envAllFail with systemAvail := true, copyItems := filesToDownload }

/-- System installation present, but the copy loop raises after placing
only `0/U`; afterwards every download succeeds. -/
def envCopyCrash : Env :=
  { envAllOk with
    systemAvail := true
    copyItems := ["0/U", "system/controlDict"]
    copyFailsAfter := some 1 }

/-- A directory that contains only the marker file. -/
def dMarker : DirState :=
  { files := ["system/controlDict"], dirs := ["system"] }

/-- A target directory that contains only the marker file. -/
def fsOnlyMarker : FS := some dMarker

/-- A pre-existing target directory holding one unrelated file. -/
def fsPre : FS := some { files := ["notes.txt"], dirs := [] }

/-! ### The claims -/

/-- Claim C1, as stated, is false on the code: on a target directory
that contains only `system/controlDict`, acquire returns successfully,
yet `0/U` (like the other five remaining files) does not exist under the
returned path.  Every success path verifies only the marker file. -/
theorem claim1_counterexample :
    (download_cavity_tutorial envAllFail fsOnlyMarker).res = Except.ok () ∧
    (download_cavity_tutorial envAllFail fsOnlyMarker).fs.containsFile "0/U" = false := by
  exact ⟨rfl, rfl⟩

/-- Claim C1 amended: for every target directory on which acquire
returns successfully, the marker file `system/controlDict` exists under
the returned path; the code verifies exactly this marker, not all seven
files. -/
theorem claim1_marker_on_success (env : Env) (fs0 : FS)
    (h : (download_cavity_tutorial env fs0).res = Except.ok ()) :
    (download_cavity_tutorial env fs0).fs.containsFile controlDict = true :=
  (run_ok_iff_marker env fs0).mp h

/-- Witness for the amended C1: all seven downloads succeed on an absent
target; acquire succeeds and the marker exists afterwards. -/
theorem claim1_witness :
    (download_cavity_tutorial envAllOk none).fs.containsFile controlDict = true :=
  claim1_marker_on_success envAllOk none (by rfl)

/-- Claim C2: whenever acquire raises (the system copy did not verify
and the downloads failed to produce the marker), the final target state
contains no `system/controlDict`; and whenever the tree removal
succeeds, the target directory is absent afterwards, so the caller sees
either a populated directory or no directory at all. -/
theorem claim2_cleanup_before_raise (env : Env) (fs0 : FS) (msg : String)
    (h : (download_cavity_tutorial env fs0).res = Except.error msg) :
    (download_cavity_tutorial env fs0).fs.containsFile controlDict = false ∧
    (env.rmtreeOk = true → (download_cavity_tutorial env fs0).fs = none) := by
  obtain ⟨-, hfs, -⟩ := run_error env fs0 msg h
  obtain ⟨-, -, h3⟩ := run_error_shape env fs0 msg h
  constructor
  · rw [hfs]
    by_cases hr : env.rmtreeOk = true
    · simp [hr, FS.containsFile]
    · rw [Bool.not_eq_true] at hr
      simp [hr, FS.containsFile, h3]
  · intro hr
    rw [hfs, if_pos hr]

/-- Witness for C2: absent target, no system copy, all downloads fail:
afterwards the marker is absent and the directory was removed. -/
theorem claim2_witness :
    (download_cavity_tutorial envAllFail none).fs.containsFile controlDict = false ∧
    (envAllFail.rmtreeOk = true → (download_cavity_tutorial envAllFail none).fs = none) :=
  claim2_cleanup_before_raise envAllFail none (errorMsg envAllFail) (by rfl)

/-- Claim C3: on a target that already contains `system/controlDict`,
acquire returns the target immediately: the run succeeds, the state is
unchanged (no filesystem write), and the trace holds neither a network
request nor a copy; a second call on the resulting state — under any
environment — again succeeds with an unchanged state, so both calls
return the same path (`target_dir`). -/
theorem claim3_idempotent_shortcircuit (env env2 : Env) (d : DirState)
    (h : d.hasFile controlDict = true) :
    (download_cavity_tutorial env (some d)).res = Except.ok () ∧
    (download_cavity_tutorial env (some d)).fs = some d ∧
    (∀ e ∈ (download_cavity_tutorial env (some d)).trace,
        e.isNet = false ∧ e.isCopy = false) ∧
    (download_cavity_tutorial env2 (download_cavity_tutorial env (some d)).fs).res
      = Except.ok () ∧
    (download_cavity_tutorial env2 (download_cavity_tutorial env (some d)).fs).fs
      = (download_cavity_tutorial env (some d)).fs := by
  rw [run_shortcircuit env d h]
  simp only []
  rw [run_shortcircuit env2 d h]
  simp [Event.isNet, Event.isCopy]

/-- Witness for C3 at a directory holding just the marker file. -/
theorem claim3_witness :
    (download_cavity_tutorial envAllFail (some dMarker)).res = Except.ok () ∧
    (download_cavity_tutorial envAllFail (some dMarker)).fs = some dMarker ∧
    (∀ e ∈ (download_cavity_tutorial envAllFail (some dMarker)).trace,
        e.isNet = false ∧ e.isCopy = false) ∧
    (download_cavity_tutorial envAllOk
      (download_cavity_tutorial envAllFail (some dMarker)).fs).res = Except.ok () ∧
    (download_cavity_tutorial envAllOk
      (download_cavity_tutorial envAllFail (some dMarker)).fs).fs
      = (download_cavity_tutorial envAllFail (some dMarker)).fs :=
  claim3_idempotent_shortcircuit envAllFail envAllOk dMarker (by decide)

/-- Claim C4: when the target lacks the marker, the system installation
is available, and the copy completes without exception and verifies
(the marker is among the items it places), acquire succeeds and its
trace contains no HTTP request: the system path is preferred over the
network download. -/
theorem claim4_system_preferred (env : Env) (fs0 : FS)
    (h0 : fs0.containsFile controlDict = false)
    (h1 : env.systemAvail = true)
    (h2 : env.copyFailsAfter = none)
    (h3 : controlDict ∈ env.copyItems) :
    (download_cavity_tutorial env fs0).res = Except.ok () ∧
    ∀ u, Event.httpGet u ∉ (download_cavity_tutorial env fs0).trace := by
  have hd0 : (ensureTarget fs0).1.hasFile controlDict = false := by
    rw [ensureTarget_hasFile]
    exact h0
  have hci : controlDict ∈ copiedItems env := by
    unfold copiedItems
    rw [h2]
    exact h3
  have hv : ((copiedItems env).foldl DirState.addFile
      (ensureTarget fs0).1).hasFile controlDict = true :=
    (hasFile_foldl_addFile _ _ _).mpr (Or.inr hci)
  have hdone : (systemCopyPhase env (ensureTarget fs0).1).2.2 = true :=
    (systemCopyPhase_done env _).mpr ⟨h1, h2, hv⟩
  rw [run_copydone env fs0 hd0 hdone]
  refine ⟨rfl, ?_⟩
  intro u hu
  simp only [List.mem_append] at hu
  rcases hu with hu | hu
  · exact httpGet_not_mem_ensureTarget fs0 u hu
  · exact systemCopyPhase_no_net env _ u hu

/-- Witness for C4: absent target, full system copy available. -/
theorem claim4_witness :
    (download_cavity_tutorial envSysOk none).res = Except.ok () ∧
    ∀ u, Event.httpGet u ∉ (download_cavity_tutorial envSysOk none).trace :=
  claim4_system_preferred envSysOk none rfl rfl rfl (List.mem_cons_self _ _)

set_option maxRecDepth 16000 in
/-- Claim C5, as stated, is false: in a run where every download fails
with exception text "timed out", acquire raises the aggregated error,
yet the message contains no URL at all — the string "https", which every
download URL starts with, never occurs in it.  The message lists each
failed file's remote path, not its URL. -/
theorem claim5_counterexample :
    (download_cavity_tutorial envAllFail none).res
      = Except.error (errorMsg envAllFail) ∧
    failedFiles envAllFail = filesToDownload ∧
    strOccurs "https" (errorMsg envAllFail) = false ∧
    strOccurs baseUrl (errorMsg envAllFail) = false := by
  refine ⟨rfl, rfl, by decide, by decide⟩

/-- Claim C5 amended: when copy-verification fails and the download also
fails to produce `controlDict`, acquire raises a single RuntimeError
whose message aggregates one entry per failed transfer, each naming the
file's remote path (the path relative to the base URL, not the full
URL) together with the underlying error text. -/
theorem claim5_aggregated_error (env : Env) (fs0 : FS) (msg : String)
    (h : (download_cavity_tutorial env fs0).res = Except.error msg) :
    msg = errorMsg env ∧
    ((downloadErrors env).isEmpty = false →
      msg = "Failed to download OpenFOAM tutorial. Errors: " ++
        String.intercalate "; " (downloadErrors env)) ∧
    ∀ p ∈ failedFiles env,
      ("Failed to download " ++ p ++ ": " ++ env.dlErr p) ∈ downloadErrors env := by
  obtain ⟨hm, -, -⟩ := run_error env fs0 msg h
  refine ⟨hm, ?_, ?_⟩
  · intro hne
    rw [hm]
    unfold errorMsg
    rw [if_neg]
    rw [hne]
    exact Bool.false_ne_true
  · intro p hp
    exact List.mem_map_of_mem _ hp

/-- Witness for the amended C5 with every download failing. -/
theorem claim5_witness :
    errorMsg envAllFail = errorMsg envAllFail ∧
    ((downloadErrors envAllFail).isEmpty = false →
      errorMsg envAllFail = "Failed to download OpenFOAM tutorial. Errors: " ++
        String.intercalate "; " (downloadErrors envAllFail)) ∧
    ∀ p ∈ failedFiles envAllFail,
      ("Failed to download " ++ p ++ ": " ++ envAllFail.dlErr p)
        ∈ downloadErrors envAllFail :=
  claim5_aggregated_error envAllFail none (errorMsg envAllFail) (by rfl)

/-- Claim C6: failure detection is marker-based, not count-based.  With
no system installation and no pre-existing marker, acquire succeeds
exactly when the `system/controlDict` download succeeds, whatever
happens to the other six files: it raises when six of seven succeed but
`controlDict` fails, and succeeds whenever the marker exists after the
download phase. -/
theorem claim6_marker_based (env : Env) (fs0 : FS)
    (h0 : fs0.containsFile controlDict = false)
    (h1 : env.systemAvail = false) :
    (download_cavity_tutorial env fs0).res = Except.ok () ↔
      env.dlOk controlDict = true := by
  have hd0 : (ensureTarget fs0).1.hasFile controlDict = false := by
    rw [ensureTarget_hasFile]
    exact h0
  have hdone : (systemCopyPhase env (ensureTarget fs0).1).2.2 = false := by
    cases hdn : (systemCopyPhase env (ensureTarget fs0).1).2.2
    · rfl
    · obtain ⟨hsa, -, -⟩ := (systemCopyPhase_done env _).mp hdn
      rw [h1] at hsa
      cases hsa
  have hsc1 : (systemCopyPhase env (ensureTarget fs0).1).1 = (ensureTarget fs0).1 := by
    rw [systemCopyPhase_fst, h1]
    simp
  rw [run_fallback env fs0 hd0 hdone]
  simp only []
  constructor
  · intro hok
    by_cases h3 :
        (downloadPhase env (systemCopyPhase env (ensureTarget fs0).1).1).1.hasFile
          controlDict = true
    · rw [downloadPhase_hasFile] at h3
      rcases h3 with h3 | h3
      · rw [hsc1] at h3
        rw [h3] at hd0
        simp at hd0
      · rw [List.mem_filter] at h3
        exact h3.2
    · rw [Bool.not_eq_true] at h3
      rw [finalize_err env _ h3] at hok
      simp at hok
  · intro hdl
    have h3 :
        (downloadPhase env (systemCopyPhase env (ensureTarget fs0).1).1).1.hasFile
          controlDict = true := by
      rw [downloadPhase_hasFile]
      refine Or.inr ?_
      rw [List.mem_filter]
      exact ⟨List.mem_cons_self _ _, hdl⟩
    rw [finalize_ok env _ h3]

/-- Witness for C6: six of seven downloads succeed but `controlDict`
fails; the equivalence instantiates to: success iff false. -/
theorem claim6_witness :
    (download_cavity_tutorial envSixOk none).res = Except.ok () ↔
      envSixOk.dlOk controlDict = true :=
  claim6_marker_based envSixOk none rfl rfl

/-- Claim C7: once the download phase is reached, every one of the
seven files is attempted — an HTTP request for each appears in the
trace — no matter how many transfers fail; each failing file's error is
caught (the run continues), logged, and an entry for it is recorded in
the accumulated error list. -/
theorem claim7_no_early_abort (env : Env) (fs0 : FS)
    (h0 : fs0.containsFile controlDict = false)
    (h1 : (systemCopyPhase env (ensureTarget fs0).1).2.2 = false) :
    (∀ p ∈ filesToDownload,
        Event.httpGet (baseUrl ++ p) ∈ (download_cavity_tutorial env fs0).trace) ∧
    (∀ p ∈ failedFiles env,
        Event.logError ("Failed to download " ++ p)
          ∈ (download_cavity_tutorial env fs0).trace ∧
        ("Failed to download " ++ p ++ ": " ++ env.dlErr p) ∈ downloadErrors env) := by
  have hd0 : (ensureTarget fs0).1.hasFile controlDict = false := by
    rw [ensureTarget_hasFile]
    exact h0
  rw [run_fallback env fs0 hd0 h1]
  simp only []
  constructor
  · intro p hp
    simp only [List.mem_append]
    exact Or.inl (Or.inr (httpGet_mem_downloadPhase env _ p hp))
  · intro p hp
    have hp2 := hp
    unfold failedFiles at hp2
    rw [List.mem_filter] at hp2
    obtain ⟨hpf, hpfail⟩ := hp2
    rw [Bool.not_eq_eq_eq_not, Bool.not_true] at hpfail
    constructor
    · simp only [List.mem_append]
      exact Or.inl (Or.inr (logError_mem_downloadPhase env _ p hpf hpfail))
    · exact List.mem_map_of_mem _ hp

/-- Witness for C7 with six of seven downloads succeeding. -/
theorem claim7_witness :
    (∀ p ∈ filesToDownload,
        Event.httpGet (baseUrl ++ p)
          ∈ (download_cavity_tutorial envSixOk none).trace) ∧
    (∀ p ∈ failedFiles envSixOk,
        Event.logError ("Failed to download " ++ p)
          ∈ (download_cavity_tutorial envSixOk none).trace ∧
        ("Failed to download " ++ p ++ ": " ++ envSixOk.dlErr p)
          ∈ downloadErrors envSixOk) :=
  claim7_no_early_abort envSixOk none rfl rfl

/-- Claim C8: when the system copy raises a filesystem error or
completes without producing the marker, acquire does not abort: a
warning is logged and control falls through to the download phase,
which still attempts all seven files. -/
theorem claim8_copy_failure_falls_through (env : Env) (fs0 : FS)
    (h0 : fs0.containsFile controlDict = false)
    (h1 : env.systemAvail = true)
    (h2 : env.copyFailsAfter.isSome = true ∨
      ((copiedItems env).foldl DirState.addFile (ensureTarget fs0).1).hasFile
        controlDict = false) :
    (∃ w, Event.logWarning w ∈ (download_cavity_tutorial env fs0).trace) ∧
    (∀ p ∈ filesToDownload,
        Event.httpGet (baseUrl ++ p) ∈ (download_cavity_tutorial env fs0).trace) := by
  have hd0 : (ensureTarget fs0).1.hasFile controlDict = false := by
    rw [ensureTarget_hasFile]
    exact h0
  have hdone : (systemCopyPhase env (ensureTarget fs0).1).2.2 = false := by
    cases hdn : (systemCopyPhase env (ensureTarget fs0).1).2.2
    · rfl
    · obtain ⟨-, hcf, hv⟩ := (systemCopyPhase_done env _).mp hdn
      rcases h2 with h2 | h2
      · rw [hcf] at h2
        simp at h2
      · rw [h2] at hv
        simp at hv
  have hw : ∃ w, Event.logWarning w ∈ (systemCopyPhase env (ensureTarget fs0).1).2.1 := by
    unfold systemCopyPhase
    rw [if_pos h1]
    by_cases hcf : env.copyFailsAfter.isSome = true
    · refine ⟨"Failed to copy from system", ?_⟩
      rw [if_pos hcf]
      simp
    · rcases h2 with h2 | h2
      · exact absurd h2 hcf
      · refine ⟨"System copy incomplete, falling back to download", ?_⟩
        rw [if_neg hcf, if_neg (by simp [h2])]
        simp
  obtain ⟨w, hwmem⟩ := hw
  rw [run_fallback env fs0 hd0 hdone]
  simp only []
  constructor
  · refine ⟨w, ?_⟩
    simp only [List.mem_append]
    exact Or.inl (Or.inl (Or.inl (Or.inr hwmem)))
  · intro p hp
    simp only [List.mem_append]
    exact Or.inl (Or.inr (httpGet_mem_downloadPhase env _ p hp))

/-- Witness for C8: the copy raises after one item; downloads follow. -/
theorem claim8_witness :
    (∃ w, Event.logWarning w ∈ (download_cavity_tutorial envCopyCrash none).trace) ∧
    (∀ p ∈ filesToDownload,
        Event.httpGet (baseUrl ++ p)
          ∈ (download_cavity_tutorial envCopyCrash none).trace) :=
  claim8_copy_failure_falls_through envCopyCrash none rfl rfl (Or.inl rfl)

/-- Claim C9: if the copy loop raises after placing some items, those
items are still present in the state handed to the download fallback
(no cleanup between the tiers), and on success the final directory
contains both that residue and every successfully downloaded file,
written alongside or over it. -/
theorem claim9_residue_kept (env : Env) (fs0 : FS) (k : Nat)
    (h0 : fs0.containsFile controlDict = false)
    (h1 : env.systemAvail = true)
    (h2 : env.copyFailsAfter = some k) :
    (∀ p ∈ env.copyItems.take k,
        (systemCopyPhase env (ensureTarget fs0).1).1.hasFile p = true) ∧
    ((download_cavity_tutorial env fs0).res = Except.ok () →
      ∀ p, (p ∈ env.copyItems.take k ∨ p ∈ filesToDownload.filter env.dlOk) →
        (download_cavity_tutorial env fs0).fs.containsFile p = true) := by
  have hci : copiedItems env = env.copyItems.take k := by
    unfold copiedItems
    rw [h2]
  have hfst : (systemCopyPhase env (ensureTarget fs0).1).1 =
      (copiedItems env).foldl DirState.addFile (ensureTarget fs0).1 := by
    rw [systemCopyPhase_fst, if_pos h1]
  have hd0 : (ensureTarget fs0).1.hasFile controlDict = false := by
    rw [ensureTarget_hasFile]
    exact h0
  have hdone : (systemCopyPhase env (ensureTarget fs0).1).2.2 = false := by
    cases hdn : (systemCopyPhase env (ensureTarget fs0).1).2.2
    · rfl
    · obtain ⟨-, hcf, -⟩ := (systemCopyPhase_done env _).mp hdn
      rw [h2] at hcf
      cases hcf
  constructor
  · intro p hp
    rw [hfst, hasFile_foldl_addFile]
    right
    rw [hci]
    exact hp
  · intro hok p hp
    rw [run_fallback env fs0 hd0 hdone] at hok ⊢
    simp only [] at hok ⊢
    by_cases h3 :
        (downloadPhase env (systemCopyPhase env (ensureTarget fs0).1).1).1.hasFile
          controlDict = true
    · rw [finalize_ok env _ h3]
      simp only [FS.containsFile]
      rw [downloadPhase_hasFile]
      rcases hp with hp | hp
      · left
        rw [hfst, hasFile_foldl_addFile]
        right
        rw [hci]
        exact hp
      · right
        exact hp
    · rw [Bool.not_eq_true] at h3
      rw [finalize_err env _ h3] at hok
      simp at hok

/-- Witness for C9: copy crashes after placing `0/U`; every download
succeeds, and the final directory holds the residue and the seven
downloaded files. -/
theorem claim9_witness :
    (∀ p ∈ envCopyCrash.copyItems.take 1,
        (systemCopyPhase envCopyCrash (ensureTarget none).1).1.hasFile p = true) ∧
    ((download_cavity_tutorial envCopyCrash none).res = Except.ok () →
      ∀ p, (p ∈ envCopyCrash.copyItems.take 1 ∨
            p ∈ filesToDownload.filter envCopyCrash.dlOk) →
        (download_cavity_tutorial envCopyCrash none).fs.containsFile p = true) :=
  claim9_residue_kept envCopyCrash none 1 rfl rfl rfl

/-- Claim C10: on terminal failure the cleanup targets the entire target
directory tree: when removal succeeds the directory is gone, including
files that were already present before the call; and removal errors are
ignored — with removal failing, the very same aggregated error is still
the exception raised. -/
theorem claim10_rmtree_scope (env : Env) (fs0 : FS) (msg : String)
    (h : (download_cavity_tutorial env fs0).res = Except.error msg) :
    (env.rmtreeOk = true → (download_cavity_tutorial env fs0).fs = none) ∧
    msg = errorMsg env ∧
    (download_cavity_tutorial { env with rmtreeOk := false } fs0).res
      = Except.error msg ∧
    Event.rmtree ∈ (download_cavity_tutorial env fs0).trace := by
  obtain ⟨hm, hfs, htr⟩ := run_error env fs0 msg h
  refine ⟨?_, hm, ?_, htr⟩
  · intro hr
    rw [hfs, if_pos hr]
  · rw [res_ignores_rmtree env false fs0]
    exact h

/-- Witness for C10: the pre-existing file `notes.txt` is also removed
by the cleanup on total failure. -/
theorem claim10_witness :
    (envAllFail.rmtreeOk = true →
      (download_cavity_tutorial envAllFail fsPre).fs = none) ∧
    errorMsg envAllFail = errorMsg envAllFail ∧
    (download_cavity_tutorial { envAllFail with rmtreeOk := false } fsPre).res
      = Except.error (errorMsg envAllFail) ∧
    Event.rmtree ∈ (download_cavity_tutorial envAllFail fsPre).trace :=
  claim10_rmtree_scope envAllFail fsPre (errorMsg envAllFail) (by rfl)

end AwesomeFoamlib
